import Mathlib

/-!
# Verification of the air-quality ETL pipeline (flows/etl_flow.py)

A shallow embedding of the ETL pipeline of `src/flows/etl_flow.py`:
the Transformer (`transform_data`), the Loader (`create_database_tables`),
the Validator (`validate_database`) and the orchestrating flow
(`air_quality_etl_flow`).

Modelling conventions:
* A dataframe is a `List` of row structures; a nullable cell (pandas `NaN`)
  is `Option`-typed, with `none` standing for a missing value.
* Python floats are modelled as `Rat`; the decimal literals occurring in the
  data and in the claims are exactly representable, so no rounding questions
  arise for the properties proved here.
* `astype('float')` raises a `ValueError` on an unparseable string; fallible
  steps therefore live in `Except String`.
* The SQLite database is a record of the four relations that the Loader
  writes; SQL `NOT IN` is given its three-valued semantics (`Option Bool`,
  `none` = SQL `NULL`/unknown) and `COUNT(DISTINCT c)` counts distinct
  non-null values.
* `datetime.now()` time stamps, file paths, logging sinks and the secondary
  `CREATE INDEX` statements (performance only, no effect on contents) are
  outside the embedded state; warnings emitted by the Validator are modelled
  as the returned `checks` field.
* The Python column name `section` is a Lean keyword; the corresponding
  field is called `sec` throughout.
-/

/-! ## Float values and numeric-string parsing (model of Python `float`) -/

/-- A Python/numpy float value as far as this pipeline observes it: a
finite value (modelled exactly as a rational), a signed infinity, or NaN.
In a pandas float column NaN is the missing/null marker. Rounding of
finite decimals to binary float64 (and overflow of huge literals to
infinity) is not modelled: the data and the claims only involve exactly
representable values. -/
inductive PyFloat : Type
  | finite (q : Rat)
  | inf (neg : Bool)
  | nan
deriving DecidableEq

/-- Whether a float value is NaN, i.e. null in a pandas float column. -/
def PyFloat.isNan : PyFloat → Bool
  | PyFloat.nan => true
  | _ => false

/-- Python unary minus on a float: NaN stays NaN. -/
def PyFloat.neg : PyFloat → PyFloat
  | PyFloat.finite q => PyFloat.finite (-q)
  | PyFloat.inf b => PyFloat.inf (!b)
  | PyFloat.nan => PyFloat.nan

/-- The value `pandas.to_sql` stores for a float cell: NaN becomes SQL
`NULL`, every other float is stored as a REAL. -/
def PyFloat.toSql : PyFloat → Option PyFloat
  | PyFloat.nan => none
  | v => some v

/-- Python/numpy float equality `==`: NaN compares unequal to everything,
including itself. -/
def pyEq : PyFloat → PyFloat → Bool
  | PyFloat.finite a, PyFloat.finite b => a == b
  | PyFloat.inf a, PyFloat.inf b => a == b
  | _, _ => false

/-- The whitespace characters stripped by Python `float(str)`. -/
def isPySpace (c : Char) : Bool :=
  c == ' ' || c == '\t' || c == '\n' || c == '\r' || c == '\x0b'
    || c == '\x0c'

/-- Strip leading and trailing whitespace. -/
def stripSpaces (cs : List Char) : List Char :=
  ((cs.dropWhile isPySpace).reverse.dropWhile isPySpace).reverse

/-- Lower-case a character list (Python float parsing is case-insensitive
on `nan`, `inf`, `infinity` and the exponent marker). -/
def lowerChars (cs : List Char) : List Char :=
  cs.map Char.toLower

/-- Split a character list at the first dot, if any. -/
def splitDot : List Char → List Char × Option (List Char)
  | [] => ([], none)
  | c :: rest =>
    if c = '.' then ([], some rest)
    else
      let p := splitDot rest
      (c :: p.1, p.2)

/-- Split a character list at the first exponent marker `e`/`E`, if any. -/
def splitExp : List Char → List Char × Option (List Char)
  | [] => ([], none)
  | c :: rest =>
    if c = 'e' ∨ c = 'E' then ([], some rest)
    else
      let p := splitExp rest
      (c :: p.1, p.2)

/-- Tail check for a Python digit group: digits with single underscores
allowed only between digits. -/
def digitsUAux : List Char → Bool
  | [] => true
  | ['_'] => false
  | '_' :: d :: rest => d.isDigit && digitsUAux rest
  | d :: rest => d.isDigit && digitsUAux rest

/-- A non-empty Python digit group: digits, with an underscore allowed
only between two digits (as in `1_000`). -/
def digitsU (cs : List Char) : Bool :=
  match cs with
  | [] => false
  | c :: rest => c.isDigit && digitsUAux rest

/-- Drop the grouping underscores of a validated digit group. -/
def stripU (cs : List Char) : List Char :=
  cs.filter (fun c => c != '_')

/-- Numeric value of a digit string (assumes all characters are digits). -/
def natOfDigits (cs : List Char) : Nat :=
  cs.foldl (fun acc c => acc * 10 + (c.toNat - 48)) 0

/-- Parse the mantissa of a decimal numeral: `ddd`, `ddd.ddd`, `ddd.` or
`.ddd`, with Python digit-group underscores. -/
def parseMantissa (cs : List Char) : Option Rat :=
  let p := splitDot cs
  match p.2 with
  | none =>
    if digitsU p.1 then some ((natOfDigits (stripU p.1) : Nat) : Rat)
    else none
  | some fp =>
    if fp.contains '.' then none
    else if p.1.isEmpty then
      if digitsU fp then
        some ((natOfDigits (stripU fp) : Rat)
          / (10 : Rat) ^ (stripU fp).length)
      else none
    else if fp.isEmpty then
      if digitsU p.1 then some ((natOfDigits (stripU p.1) : Nat) : Rat)
      else none
    else
      if digitsU p.1 && digitsU fp then
        some ((natOfDigits (stripU p.1) : Rat)
          + (natOfDigits (stripU fp) : Rat) / (10 : Rat) ^ (stripU fp).length)
      else none

/-- Parse an optionally signed exponent digit group. -/
def parseSignedExp (cs : List Char) : Option Int :=
  match cs with
  | '-' :: rest =>
    if digitsU rest then some (-((natOfDigits (stripU rest) : Nat) : Int))
    else none
  | '+' :: rest =>
    if digitsU rest then some ((natOfDigits (stripU rest) : Nat) : Int)
    else none
  | _ =>
    if digitsU cs then some ((natOfDigits (stripU cs) : Nat) : Int)
    else none

/-- Parse an unsigned Python float literal: `nan`, `inf`, `infinity`
(case-insensitive), or a decimal numeral with optional exponent. -/
def parseUnsignedPyFloat (cs : List Char) : Option PyFloat :=
  if lowerChars cs = ['n', 'a', 'n'] then some PyFloat.nan
  else if lowerChars cs = ['i', 'n', 'f'] then some (PyFloat.inf false)
  else if lowerChars cs = ['i', 'n', 'f', 'i', 'n', 'i', 't', 'y'] then
    some (PyFloat.inf false)
  else
    let p := splitExp cs
    match p.2 with
    | none => (parseMantissa p.1).map PyFloat.finite
    | some ex =>
      match parseMantissa p.1, parseSignedExp ex with
      | some m, some e => some (PyFloat.finite (m * (10 : Rat) ^ e))
      | _, _ => none

/-- The model of Python/numpy string-to-float conversion (`float(str)`,
as used element-wise by `astype('float')`): strip whitespace, optional
sign, then a NaN/infinity literal or a decimal numeral with optional
exponent; `none` means the conversion raises `ValueError`. Restricted to
ASCII (the data is an ASCII-delimited CSV); Unicode digits and whitespace
are not modelled. -/
def parsePyFloat (s : String) : Option PyFloat :=
  match stripSpaces s.data with
  | '-' :: rest => (parseUnsignedPyFloat rest).map PyFloat.neg
  | '+' :: rest => parseUnsignedPyFloat rest
  | cs => parseUnsignedPyFloat cs

/-- Model of `str.replace(',', '.')`: replace every comma by a dot. -/
def replaceComma (s : String) : String :=
  String.mk (s.data.map (fun c => if c = ',' then '.' else c))

/-- Model of `dd.to_numeric(col, errors='coerce')` on one cell: a null
cell stays NaN, an unparseable string becomes NaN instead of raising (the
shared parser above stands in for pandas' own numeric-string parser). -/
def to_numeric (v : Option String) : PyFloat :=
  match v with
  | none => PyFloat.nan
  | some s => (parsePyFloat s).getD PyFloat.nan

/-- Model of `col.str.replace(',', '.').astype('float')` on one cell: a
null cell converts to NaN (`float(nan)` is NaN), a NaN/infinity literal
converts successfully, and an unparseable string raises (`Except.error`),
matching pandas `astype`. -/
def astypeFloat (v : Option String) : Except String PyFloat :=
  match v with
  | none => Except.ok PyFloat.nan
  | some s =>
    match parsePyFloat (replaceComma s) with
    | some x => Except.ok x
    | none => Except.error ("could not convert string to float: " ++ s)

/-! ## Rows -/

/-- A raw CSV row after the positional rename of step 1 of `transform_data`:
fourteen nullable text cells, named by the canonical column names of the
source (`new_names` below); `sec` stands for the Python column `section`. -/
structure RawRow where
  sec : Option String
  indicator : Option String
  unit : Option String
  code : Option String
  substance : Option String
  source_type : Option String
  emission_type : Option String
  location_level : Option String
  region : Option String
  municipal_district : Option String
  municipal_formation : Option String
  oktmo_code : Option String
  year : Option String
  value : Option String
deriving DecidableEq

/-- A transformed row (`df_final` in `transform_data`): same columns, with
`year` coerced numerically (null on failure) and `value` cast to float. -/
structure Row where
  sec : Option String
  indicator : Option String
  unit : Option String
  code : Option String
  substance : Option String
  source_type : Option String
  emission_type : Option String
  location_level : Option String
  region : Option String
  municipal_district : Option String
  municipal_formation : Option String
  oktmo_code : Option String
  year : PyFloat
  value : PyFloat
deriving DecidableEq

/-! ## Transformer: `transform_data` (etl_flow.py lines 50-102) -/

/-- The fourteen canonical column names assigned in step 1 of
`transform_data` (etl_flow.py lines 60-65). -/
def new_names : List String :=
  ["section", "indicator", "unit", "code", "substance",
   "source_type", "emission_type", "location_level", "region",
   "municipal_district", "municipal_formation", "oktmo_code",
   "year", "value"]

/-- Model of `df.rename(columns=dict(zip(df.columns, new_names)))`: each
original column name is looked up in the zip dictionary, names not in the
dictionary are kept. -/
def renameColumns (cols : List String) : List String :=
  cols.map (fun c => (List.lookup c (cols.zip new_names)).getD c)

/-- Model of `df.dropna(subset=['value', 'section', 'code', 'substance'])`:
keep a row iff all four subset cells are non-null (line 71). -/
def dropnaKeep (r : RawRow) : Bool :=
  r.value.isSome && r.sec.isSome && r.code.isSome && r.substance.isSome

/-- Type conversion of one kept row (steps 3-4, lines 75-78): `year` is
numerically coerced (null on failure), `value` has commas replaced by dots
and is cast to float, raising on an unparseable string. -/
def convertRow (r : RawRow) : Except String Row :=
  match astypeFloat r.value with
  | Except.error e => Except.error e
  | Except.ok v =>
    Except.ok
      { sec := r.sec, indicator := r.indicator, unit := r.unit,
        code := r.code, substance := r.substance,
        source_type := r.source_type, emission_type := r.emission_type,
        location_level := r.location_level, region := r.region,
        municipal_district := r.municipal_district,
        municipal_formation := r.municipal_formation,
        oktmo_code := r.oktmo_code,
        year := to_numeric r.year, value := v }

/-- Apply a fallible conversion to every row; the first failure aborts
(this is where the `ValueError` of `astype` surfaces at `compute()`). -/
def mapExcept {α β ε : Type} (f : α → Except ε β) : List α → Except ε (List β)
  | [] => Except.ok []
  | a :: l =>
    match f a with
    | Except.error e => Except.error e
    | Except.ok b =>
      match mapExcept f l with
      | Except.error e => Except.error e
      | Except.ok bs => Except.ok (b :: bs)

/-- The sentinel float `9999999999.0` marking "not reported" (line 89). -/
def sentinel : Rat := 9999999999

/-- The fixed exclusion set of invalid substance codes (line 92). -/
def excluded_substances : List String := ["CD", "ND"]

/-- Model of `df_final['substance'].isin(['CD', 'ND'])` on one cell: a
null cell is not in the set. -/
def substanceExcluded (v : Option String) : Bool :=
  match v with
  | some s => excluded_substances.contains s
  | none => false

/-- The Transformer (etl_flow.py lines 50-102): drop rows with a null
`value`/`section`/`code`/`substance`, convert types (raising on an
unparseable `value`), drop sentinel values and excluded substances.
Note pandas semantics of the two filters: `value != sentinel` is `True`
for a NaN value (NaN compares unequal to everything), and `~isin` keeps a
null substance. -/
def transform_data (rows : List RawRow) : Except String (List Row) :=
  match mapExcept convertRow (rows.filter dropnaKeep) with
  | Except.error e => Except.error e
  | Except.ok df_computed =>
    Except.ok
      ((df_computed.filter
          (fun r => !(pyEq r.value (PyFloat.finite sentinel)))).filter
        (fun r => !(substanceExcluded r.substance)))

deriving instance DecidableEq for Except

example : parsePyFloat "2020" = some (PyFloat.finite 2020) := by decide
example : parsePyFloat "abc" = none := by decide
example : parsePyFloat "" = none := by decide
example : parsePyFloat "1.2.3" = none := by decide
example : parsePyFloat "NAN" = some PyFloat.nan := by decide
example : parsePyFloat " nan " = some PyFloat.nan := by decide
example : parsePyFloat "-NaN" = some PyFloat.nan := by decide
example : parsePyFloat "inf" = some (PyFloat.inf false) := by decide
example : parsePyFloat "-Infinity" = some (PyFloat.inf true) := by decide
example : parsePyFloat "1_0" = some (PyFloat.finite 10) := by decide
example : parsePyFloat "1_" = none := by decide
example : parsePyFloat "1__0" = none := by decide
example : parsePyFloat "1e" = none := by decide
example : parsePyFloat "- 5" = none := by decide
example : replaceComma "1234,5" = "1234.5" := by decide
example : parsePyFloat "1234.5" = some (PyFloat.finite ((1234.5 : Rat))) := by
  show some (PyFloat.finite ((natOfDigits ['1','2','3','4'] : Rat)
      + (natOfDigits ['5'] : Rat) / (10 : Rat) ^ ((1 : Nat))))
    = some (PyFloat.finite ((1234.5 : Rat)))
  have h1 : natOfDigits ['1','2','3','4'] = 1234 := by decide
  have h2 : natOfDigits ['5'] = 5 := by decide
  rw [h1, h2]
  exact congrArg (fun q => some (PyFloat.finite q)) (by norm_num)

/-! ## Loader: `create_database_tables` (etl_flow.py lines 104-195) -/

/-- A row of the `air_emissions` fact table, columns in the order
`['section', 'code', 'substance', 'value', 'oktmo_code', 'year']`
(line 126). -/
structure FactRow where
  sec : Option String
  code : Option String
  substance : Option String
  value : Option PyFloat
  oktmo_code : Option String
  year : Option PyFloat
deriving DecidableEq

/-- A row of the `indicator_codes` dimension table (`['code', 'indicator']`,
line 136). -/
structure IndRow where
  code : Option String
  indicator : Option String
deriving DecidableEq

/-- A row of the `substance_types` dimension table
(`['substance', 'source_type']`, line 146). -/
structure SubRow where
  substance : Option String
  source_type : Option String
deriving DecidableEq

/-- A row of the `location_codes` dimension table (`['oktmo_code',
'municipal_formation', 'municipal_district', 'region']`, line 156). -/
structure LocRow where
  oktmo_code : Option String
  municipal_formation : Option String
  municipal_district : Option String
  region : Option String
deriving DecidableEq

/-- The SQLite database: exactly the four relations the Loader writes. -/
structure DB where
  air_emissions : List FactRow
  indicator_codes : List IndRow
  substance_types : List SubRow
  location_codes : List LocRow
deriving DecidableEq

/-- Projection `df_final[air_emissions_cols]` of one row (line 126);
`to_sql` stores a NaN float cell as SQL `NULL`. -/
def projFact (r : Row) : FactRow :=
  { sec := r.sec, code := r.code, substance := r.substance,
    value := r.value.toSql, oktmo_code := r.oktmo_code,
    year := r.year.toSql }

/-- Projection `df_final[['code', 'indicator']]` of one row (line 136). -/
def projInd (r : Row) : IndRow :=
  { code := r.code, indicator := r.indicator }

/-- Projection `df_final[['substance', 'source_type']]` of one row
(line 146). -/
def projSub (r : Row) : SubRow :=
  { substance := r.substance, source_type := r.source_type }

/-- Projection `df_final[location_cols]` of one row (line 156). -/
def projLoc (r : Row) : LocRow :=
  { oktmo_code := r.oktmo_code, municipal_formation := r.municipal_formation,
    municipal_district := r.municipal_district, region := r.region }

/-- Core of pandas `drop_duplicates` with `keep='first'`: traverse the rows,
keeping a row iff its key has not been seen before. -/
def dedupGo {α β : Type} (key : α → β) [DecidableEq β] :
    List α → List β → List α
  | [], _ => []
  | a :: l, seen =>
    if key a ∈ seen then dedupGo key l seen
    else a :: dedupGo key l (key a :: seen)

/-- pandas `drop_duplicates(subset)` (keep='first', the default): keep the
first row for each distinct key. `drop_duplicates()` with no subset is the
`key = id` instance. pandas treats `NaN` keys as equal to each other, as
does `Option.decEq` with `none`. -/
def drop_duplicates {α β : Type} (key : α → β) [DecidableEq β]
    (l : List α) : List α :=
  dedupGo key l []

/-- The ordering used by `sort_values`: compare two nullable cells,
placing nulls last (pandas `na_position='last'` default). -/
def optLe (a b : Option String) : Bool :=
  match a, b with
  | none, none => true
  | none, some _ => false
  | some _, none => true
  | some x, some y => decide (x ≤ y)

/-- The `sort_values('code')` ordering on `indicator_codes` rows. -/
def indLe (a b : IndRow) : Prop :=
  optLe a.code b.code = true

/-- The `sort_values('substance')` ordering on `substance_types` rows. -/
def subLe (a b : SubRow) : Prop :=
  optLe a.substance b.substance = true

/-- The `sort_values('oktmo_code')` ordering on `location_codes` rows. -/
def locLe (a b : LocRow) : Prop :=
  optLe a.oktmo_code b.oktmo_code = true

instance : DecidableRel indLe := fun _ _ => instDecidableEqBool _ _

instance : DecidableRel subLe := fun _ _ => instDecidableEqBool _ _

instance : DecidableRel locLe := fun _ _ => instDecidableEqBool _ _

/-- Per-table record counts (`stats`, lines 120-160). -/
structure TableStats where
  air_emissions : Nat
  indicator_codes : Nat
  substance_types : Nat
  location_codes : Nat
deriving DecidableEq

/-- The Loader (etl_flow.py lines 104-195): project the cleaned dataframe
into the four relations, deduplicate the dimension tables by their keys
(keep first), sort them, and write each with `if_exists='replace'` —
the produced database does not depend on the prior contents.  The
`CREATE INDEX` statements (lines 166-183) only add secondary indexes and do
not change any relation's contents, so they have no counterpart in the
state.  Returns (database, total record count, per-table stats). -/
def create_database_tables (df_final : List Row) (_prior : DB) :
    DB × Nat × TableStats :=
  let air_emissions_df := df_final.map projFact
  let indicator_data :=
    List.insertionSort indLe (drop_duplicates id (df_final.map projInd))
  let substance_data :=
    List.insertionSort subLe
      (drop_duplicates SubRow.substance (df_final.map projSub))
  let location_data :=
    List.insertionSort locLe (drop_duplicates id (df_final.map projLoc))
  let db : DB :=
    { air_emissions := air_emissions_df,
      indicator_codes := indicator_data,
      substance_types := substance_data,
      location_codes := location_data }
  let stats : TableStats :=
    { air_emissions := air_emissions_df.length,
      indicator_codes := indicator_data.length,
      substance_types := substance_data.length,
      location_codes := location_data.length }
  (db, stats.air_emissions + stats.indicator_codes + stats.substance_types
        + stats.location_codes, stats)

/-! ## Validator: `validate_database` (etl_flow.py lines 197-274) -/

/-- SQL three-valued `x IN (subquery)`: `none` is SQL `NULL`/unknown.
An empty list gives `FALSE` even for a `NULL` probe; a `NULL` probe against
a non-empty list is unknown; a probe absent from a list containing `NULL`
is unknown. -/
def sqlIn (x : Option String) (ys : List (Option String)) : Option Bool :=
  if ys.isEmpty then some false
  else
    match x with
    | none => none
    | some v =>
      if some v ∈ ys then some true
      else if none ∈ ys then none
      else some false

/-- SQL three-valued `NOT`. -/
def sqlNot : Option Bool → Option Bool
  | none => none
  | some b => some (!b)

/-- Model of `COUNT(DISTINCT c)`: the number of distinct non-null values. -/
def countDistinct (vals : List (Option String)) : Nat :=
  (vals.filterMap id).dedup.length

/-- Model of `SELECT COUNT(DISTINCT c) FROM fact WHERE c NOT IN (SELECT k FROM dim)`:
SQL `WHERE` keeps the rows on which the condition is `TRUE` (not unknown),
then the distinct non-null survivors are counted. -/
def count_missing (fks keys : List (Option String)) : Nat :=
  countDistinct (fks.filter (fun x => decide (sqlNot (sqlIn x keys) = some true)))

/-- Referential check of line 250: fact `code` values missing from
`indicator_codes`. -/
def missing_indicator (db : DB) : Nat :=
  count_missing (db.air_emissions.map FactRow.code)
    (db.indicator_codes.map IndRow.code)

/-- Referential check of line 252: fact `substance` values missing from
`substance_types`. -/
def missing_substance (db : DB) : Nat :=
  count_missing (db.air_emissions.map FactRow.substance)
    (db.substance_types.map SubRow.substance)

/-- Referential check of line 254: fact `oktmo_code` values missing from
`location_codes`. -/
def missing_location (db : DB) : Nat :=
  count_missing (db.air_emissions.map FactRow.oktmo_code)
    (db.location_codes.map LocRow.oktmo_code)

/-- Per-table inspection data: row count, column list and a sample of the
first two rows (lines 218-243). -/
structure TableInfo (ρ : Type) where
  row_count : Nat
  columns : List String
  sample : List ρ
deriving DecidableEq

/-- The returned `validation_results` dictionary: one entry per table found in the
database (the four relations, in `sqlite_master` name order). -/
structure ValidationResults where
  air_emissions : TableInfo FactRow
  indicator_codes : TableInfo IndRow
  location_codes : TableInfo LocRow
  substance_types : TableInfo SubRow
deriving DecidableEq

/-- One referential-integrity check (lines 248-266): its printed name, the
computed count of missing references, and whether it was reported at
warning level (`missing ≠ 0`) rather than info level. -/
structure CheckLog where
  name : String
  missing : Nat
  warned : Bool
deriving DecidableEq

/-- What one run of the Validator observes: the returned
`validation_results`, plus the three logged referential checks
(the source only logs these; they are kept here so the reporting
behaviour can be stated). -/
structure ValidationReport where
  results : ValidationResults
  checks : List CheckLog
deriving DecidableEq

/-- The Validator (etl_flow.py lines 197-274): per-table counts, columns
and samples, then the three `NOT IN` referential checks, each logged as a
warning exactly when its count is nonzero.  Every statement it executes is
a query; the database is not changed. -/
def validate_database (db : DB) : ValidationReport :=
  { results :=
      { air_emissions :=
          { row_count := db.air_emissions.length,
            columns := ["section", "code", "substance", "value",
                        "oktmo_code", "year"],
            sample := db.air_emissions.take 2 },
        indicator_codes :=
          { row_count := db.indicator_codes.length,
            columns := ["code", "indicator"],
            sample := db.indicator_codes.take 2 },
        location_codes :=
          { row_count := db.location_codes.length,
            columns := ["oktmo_code", "municipal_formation",
                        "municipal_district", "region"],
            sample := db.location_codes.take 2 },
        substance_types :=
          { row_count := db.substance_types.length,
            columns := ["substance", "source_type"],
            sample := db.substance_types.take 2 } },
    checks :=
      [ { name := "Проверка indicator_codes",
          missing := missing_indicator db,
          warned := decide (missing_indicator db ≠ 0) },
        { name := "Проверка substance_types",
          missing := missing_substance db,
          warned := decide (missing_substance db ≠ 0) },
        { name := "Проверка location_codes",
          missing := missing_location db,
          warned := decide (missing_location db ≠ 0) } ] }

/-! ## Flow: `air_quality_etl_flow` (etl_flow.py lines 280-339) -/

/-- The summary dictionary returned by the flow (lines 320-328).  The
`timestamp`, `input_file` and `database_file` entries carry the wall clock
and the path arguments through unchanged and are not part of the embedded
state. -/
structure Summary where
  total_records_processed : Nat
  table_statistics : TableStats
  validation_results : Option ValidationReport
  status : String
deriving DecidableEq

/-- The flow (etl_flow.py lines 287-339): transform the extracted rows,
load the database, optionally validate, and return the summary with status
`'COMPLETED'`.  The Extractor is modelled by the `raw` argument (the parsed
rows of the CSV file); `db` is the prior contents of the database file.  An
uncaught exception in a task propagates (`Except.error`); `validation_results`
is the empty dictionary (`none`) when validation is skipped. -/
def air_quality_etl_flow (raw : List RawRow) (db : DB)
    (run_validation : Bool) : Except String (DB × Summary) :=
  match transform_data raw with
  | Except.error e => Except.error e
  | Except.ok transformed_data =>
    let res := create_database_tables transformed_data db
    let validation_results :=
      if run_validation then some (validate_database res.1) else none
    Except.ok (res.1,
      { total_records_processed := res.2.1,
        table_statistics := res.2.2,
        validation_results := validation_results,
        status := "COMPLETED" })

/-! ## Helper lemmas -/

theorem mapExcept_ok_mem {α β ε : Type} {f : α → Except ε β} :
    ∀ {l : List α} {out : List β}, mapExcept f l = Except.ok out →
      ∀ b ∈ out, ∃ a ∈ l, f a = Except.ok b := by
  intro l
  induction l with
  | nil =>
    intro out h b hb
    simp [mapExcept] at h
    subst h
    simp at hb
  | cons a t ih =>
    intro out h b hb
    cases hfa : f a with
    | error e => simp [mapExcept, hfa] at h
    | ok b0 =>
      cases hmt : mapExcept f t with
      | error e => simp [mapExcept, hfa, hmt] at h
      | ok bs =>
        simp [mapExcept, hfa, hmt] at h
        subst h
        rcases List.mem_cons.mp hb with rfl | hb
        · exact ⟨a, List.mem_cons_self a t, hfa⟩
        · obtain ⟨a1, ha1, hfa1⟩ := ih hmt b hb
          exact ⟨a1, List.mem_cons_of_mem _ ha1, hfa1⟩

theorem mapExcept_error_of_mem {α β ε : Type} {f : α → Except ε β} {e0 : ε} :
    ∀ {l : List α} {a : α}, a ∈ l → f a = Except.error e0 →
      ∃ e, mapExcept f l = Except.error e := by
  intro l
  induction l with
  | nil => intro a ha; simp at ha
  | cons hd t ih =>
    intro a ha hfa
    rcases List.mem_cons.mp ha with rfl | ha
    · exact ⟨e0, by simp [mapExcept, hfa]⟩
    · cases hfh : f hd with
      | error e => exact ⟨e, by simp [mapExcept, hfh]⟩
      | ok b =>
        obtain ⟨e, he⟩ := ih ha hfa
        exact ⟨e, by simp [mapExcept, hfh, he]⟩

theorem mem_of_mem_dedupGo {α β : Type} (key : α → β) [DecidableEq β] :
    ∀ (l : List α) (seen : List β) (x : α),
      x ∈ dedupGo key l seen → x ∈ l := by
  intro l
  induction l with
  | nil => intro seen x hx; simp [dedupGo] at hx
  | cons a t ih =>
    intro seen x hx
    by_cases h : key a ∈ seen
    · simp only [dedupGo, if_pos h] at hx
      exact List.mem_cons_of_mem _ (ih _ _ hx)
    · simp only [dedupGo, if_neg h, List.mem_cons] at hx
      rcases hx with rfl | hx
      · exact List.mem_cons_self _ _
      · exact List.mem_cons_of_mem _ (ih _ _ hx)

theorem key_not_seen_of_mem_dedupGo {α β : Type} (key : α → β)
    [DecidableEq β] :
    ∀ (l : List α) (seen : List β) (x : α),
      x ∈ dedupGo key l seen → key x ∉ seen := by
  intro l
  induction l with
  | nil => intro seen x hx; simp [dedupGo] at hx
  | cons a t ih =>
    intro seen x hx
    by_cases h : key a ∈ seen
    · simp only [dedupGo, if_pos h] at hx
      exact ih _ _ hx
    · simp only [dedupGo, if_neg h, List.mem_cons] at hx
      rcases hx with rfl | hx
      · exact h
      · have := ih _ _ hx
        intro hmem
        exact this (List.mem_cons_of_mem _ hmem)

theorem nodup_keys_dedupGo {α β : Type} (key : α → β) [DecidableEq β] :
    ∀ (l : List α) (seen : List β),
      ((dedupGo key l seen).map key).Nodup := by
  intro l
  induction l with
  | nil => intro seen; simp [dedupGo]
  | cons a t ih =>
    intro seen
    by_cases h : key a ∈ seen
    · simp only [dedupGo, if_pos h]
      exact ih seen
    · simp only [dedupGo, if_neg h, List.map_cons]
      refine List.nodup_cons.mpr ⟨?_, ih _⟩
      intro hmem
      obtain ⟨x, hx, hkx⟩ := List.mem_map.mp hmem
      have := key_not_seen_of_mem_dedupGo key t (key a :: seen) x hx
      exact this (hkx ▸ List.mem_cons_self _ _)

theorem find?_dedupGo {α β : Type} (key : α → β) [DecidableEq β] :
    ∀ (l : List α) (seen : List β) (y : α), y ∈ dedupGo key l seen →
      l.find? (fun z => decide (key z = key y)) = some y := by
  intro l
  induction l with
  | nil => intro seen y hy; simp [dedupGo] at hy
  | cons a t ih =>
    intro seen y hy
    by_cases h : key a ∈ seen
    · simp only [dedupGo, if_pos h] at hy
      have hne : key a ≠ key y := by
        intro he
        exact key_not_seen_of_mem_dedupGo key t seen y hy (he ▸ h)
      rw [List.find?_cons_of_neg _ (by simpa using hne)]
      exact ih _ _ hy
    · simp only [dedupGo, if_neg h, List.mem_cons] at hy
      rcases hy with rfl | hy
      · rw [List.find?_cons_of_pos _ (by simp)]
      · have hns := key_not_seen_of_mem_dedupGo key t (key a :: seen) y hy
        have hne : key a ≠ key y := by
          intro he
          exact hns (he ▸ List.mem_cons_self _ _)
        rw [List.find?_cons_of_neg _ (by simpa using hne)]
        exact ih _ _ hy

theorem cover_dedupGo {α β : Type} (key : α → β) [DecidableEq β] :
    ∀ (l : List α) (seen : List β) (x : α), x ∈ l → key x ∉ seen →
      ∃ y ∈ dedupGo key l seen, key y = key x := by
  intro l
  induction l with
  | nil => intro seen x hx; simp at hx
  | cons a t ih =>
    intro seen x hx hns
    rcases List.mem_cons.mp hx with rfl | hx
    · by_cases h : key x ∈ seen
      · exact absurd h hns
      · exact ⟨x, by simp [dedupGo, if_neg h], rfl⟩
    · by_cases h : key a ∈ seen
      · simp only [dedupGo, if_pos h]
        exact ih _ _ hx hns
      · simp only [dedupGo, if_neg h]
        by_cases hk : key x = key a
        · exact ⟨a, List.mem_cons_self _ _, hk.symm⟩
        · have hns2 : key x ∉ key a :: seen := by
            intro hmem
            rcases List.mem_cons.mp hmem with he | he
            · exact hk he
            · exact hns he
          obtain ⟨y, hy, hky⟩ := ih (key a :: seen) x hx hns2
          exact ⟨y, List.mem_cons_of_mem _ hy, hky⟩

theorem mem_of_mem_drop_duplicates {α β : Type} (key : α → β)
    [DecidableEq β] (l : List α) (x : α) :
    x ∈ drop_duplicates key l → x ∈ l :=
  mem_of_mem_dedupGo key l [] x

theorem nodup_keys_drop_duplicates {α β : Type} (key : α → β)
    [DecidableEq β] (l : List α) :
    ((drop_duplicates key l).map key).Nodup :=
  nodup_keys_dedupGo key l []

theorem find?_drop_duplicates {α β : Type} (key : α → β) [DecidableEq β]
    (l : List α) (y : α) (hy : y ∈ drop_duplicates key l) :
    l.find? (fun z => decide (key z = key y)) = some y :=
  find?_dedupGo key l [] y hy

theorem cover_drop_duplicates {α β : Type} (key : α → β) [DecidableEq β]
    (l : List α) (x : α) (hx : x ∈ l) :
    ∃ y ∈ drop_duplicates key l, key y = key x :=
  cover_dedupGo key l [] x hx (by simp)

theorem mem_drop_duplicates_id {α : Type} [DecidableEq α] (l : List α)
    (x : α) : x ∈ drop_duplicates id l ↔ x ∈ l := by
  constructor
  · exact mem_of_mem_drop_duplicates id l x
  · intro hx
    obtain ⟨y, hy, hxy⟩ := cover_drop_duplicates id l x hx
    simpa [show y = x from hxy] using hy

theorem nodup_drop_duplicates_id {α : Type} [DecidableEq α] (l : List α) :
    (drop_duplicates id l).Nodup := by
  have := nodup_keys_drop_duplicates id l
  simpa using this

theorem optLe_total (a b : Option String) :
    optLe a b = true ∨ optLe b a = true := by
  cases a with
  | none =>
    cases b with
    | none => exact Or.inl rfl
    | some y => exact Or.inr rfl
  | some x =>
    cases b with
    | none => exact Or.inl rfl
    | some y => simpa [optLe] using le_total x y

theorem optLe_trans {a b c : Option String} (h1 : optLe a b = true)
    (h2 : optLe b c = true) : optLe a c = true := by
  cases a <;> cases b <;> cases c <;> simp [optLe] at *
  exact le_trans h1 h2

instance : IsTotal IndRow indLe :=
  ⟨fun a b => optLe_total a.code b.code⟩

instance : IsTrans IndRow indLe :=
  ⟨fun _ _ _ h1 h2 => optLe_trans h1 h2⟩

instance : IsTotal SubRow subLe :=
  ⟨fun a b => optLe_total a.substance b.substance⟩

instance : IsTrans SubRow subLe :=
  ⟨fun _ _ _ h1 h2 => optLe_trans h1 h2⟩

instance : IsTotal LocRow locLe :=
  ⟨fun a b => optLe_total a.oktmo_code b.oktmo_code⟩

instance : IsTrans LocRow locLe :=
  ⟨fun _ _ _ h1 h2 => optLe_trans h1 h2⟩

theorem filterMap_filter_isSome (cond : Option String → Bool) :
    ∀ fks : List (Option String),
      (fks.filter (fun x => cond x && x.isSome)).filterMap id
        = (fks.filter cond).filterMap id := by
  intro fks
  induction fks with
  | nil => rfl
  | cons x t ih =>
    cases x with
    | none =>
      by_cases hc : cond none = true
      · simp [List.filter_cons, hc, ih]
      · simp [List.filter_cons, hc, ih]
    | some v =>
      by_cases hc : cond (some v) = true
      · simp [List.filter_cons, hc, ih]
      · simp [List.filter_cons, hc, ih]

theorem count_missing_ignores_null_fk (fks keys : List (Option String)) :
    count_missing (fks.filter (fun x => x.isSome)) keys
      = count_missing fks keys := by
  unfold count_missing countDistinct
  rw [List.filter_filter, filterMap_filter_isSome]

theorem count_missing_of_null_key (fks keys : List (Option String))
    (h : none ∈ keys) : count_missing fks keys = 0 := by
  unfold count_missing
  have hne : keys.isEmpty = false := by
    cases keys with
    | nil => simp at h
    | cons k t => rfl
  have hfil : fks.filter
      (fun x => decide (sqlNot (sqlIn x keys) = some true)) = [] := by
    rw [List.filter_eq_nil_iff]
    intro x _
    cases x with
    | none => simp [sqlIn, hne, sqlNot]
    | some v =>
      by_cases hv : some v ∈ keys
      · simp [sqlIn, hne, hv, sqlNot]
      · simp [sqlIn, hne, hv, h, sqlNot]
  rw [hfil]
  rfl

theorem lookup_zip_nodup :
    ∀ (l1 l2 : List String), l1.Nodup →
      ∀ (i : Nat) (h1 : i < l1.length) (h2 : i < l2.length),
        List.lookup (l1.get ⟨i, h1⟩) (l1.zip l2) = some (l2.get ⟨i, h2⟩) := by
  intro l1
  induction l1 with
  | nil => intro l2 hn i h1; simp at h1
  | cons a t1 ih =>
    intro l2 hn i h1 h2
    cases l2 with
    | nil => simp at h2
    | cons b t2 =>
      cases i with
      | zero => simp [List.lookup]
      | succ j =>
        have hj1 : j < t1.length := Nat.lt_of_succ_lt_succ h1
        have hj2 : j < t2.length := Nat.lt_of_succ_lt_succ h2
        have hne : a ≠ t1.get ⟨j, hj1⟩ := by
          intro he
          exact (List.nodup_cons.mp hn).1 (he ▸ List.get_mem t1 _ _)
        show List.lookup (t1.get ⟨j, hj1⟩) ((a, b) :: t1.zip t2) = _
        simp only [List.lookup, beq_eq_false_iff_ne.mpr (Ne.symm hne)]
        exact ih t2 (List.nodup_cons.mp hn).2 j hj1 hj2

/-! ## Concrete test data (used by witnesses and counterexamples) -/

/-- A database file with no prior contents. -/
def emptyDB : DB :=
  { air_emissions := [], indicator_codes := [],
    substance_types := [], location_codes := [] }

/-- A fully populated, well-formed raw row. -/
def rawGood : RawRow :=
  { sec := some "01", indicator := some "gross emissions",
    unit := some "tonne", code := some "W01", substance := some "SO2",
    source_type := some "stationary", emission_type := some "total",
    location_level := some "2", region := some "Region A",
    municipal_district := some "District B",
    municipal_formation := some "Formation C",
    oktmo_code := some "46000000", year := some "2020",
    value := some "10" }

/-- The transformed image of `rawGood`. -/
def rowGood : Row :=
  { sec := some "01", indicator := some "gross emissions",
    unit := some "tonne", code := some "W01", substance := some "SO2",
    source_type := some "stationary", emission_type := some "total",
    location_level := some "2", region := some "Region A",
    municipal_district := some "District B",
    municipal_formation := some "Formation C",
    oktmo_code := some "46000000", year := PyFloat.finite ((2020 : Rat)),
    value := PyFloat.finite ((10 : Rat)) }

/-- Variant of `rawGood` with an unparseable `value` cell. -/
def rawAbc : RawRow := { rawGood with value := some "abc" }

/-- Variant of `rawGood` with a missing location code. -/
def rawNoLoc : RawRow := { rawGood with oktmo_code := none }

/-- The transformed image of `rawNoLoc`. -/
def rowNoLoc : Row := { rowGood with oktmo_code := none }

/-- Variant of `rawGood` whose `value` cell is the string `"NAN"` — all
caps is not in `read_csv`'s default `na_values`, so with `dtype=str` it
survives extraction as a string and passes `dropna`. -/
def rawNan : RawRow := { rawGood with value := some "NAN" }

/-- The transformed image of `rawNan`: `astype('float')` converts `"NAN"`
successfully to NaN, a null value. -/
def rowNan : Row := { rowGood with value := PyFloat.nan }

example : transform_data [rawGood] = Except.ok [rowGood] := by decide
example : transform_data [rawNoLoc] = Except.ok [rowNoLoc] := by decide

/-- The database produced from `rawGood` alone. -/
def dbG : DB := (create_database_tables [rowGood] emptyDB).1

/-- The flow summary for `rawGood` with validation enabled. -/
def sG : Summary :=
  { total_records_processed := (create_database_tables [rowGood] emptyDB).2.1,
    table_statistics := (create_database_tables [rowGood] emptyDB).2.2,
    validation_results := some (validate_database dbG),
    status := "COMPLETED" }

/-- The flow summary for `rawGood` with validation disabled. -/
def sG0 : Summary :=
  { total_records_processed := (create_database_tables [rowGood] emptyDB).2.1,
    table_statistics := (create_database_tables [rowGood] emptyDB).2.2,
    validation_results := none,
    status := "COMPLETED" }

example : air_quality_etl_flow [rawGood] emptyDB true = Except.ok (dbG, sG) := rfl
example : air_quality_etl_flow [rawGood] emptyDB false = Except.ok (dbG, sG0) := rfl

/-! ## Shared structure lemma for the Transformer -/

theorem transform_mem_structure {raw : List RawRow} {out : List Row}
    (h : transform_data raw = Except.ok out) :
    ∀ r ∈ out, (∃ a ∈ raw.filter dropnaKeep, convertRow a = Except.ok r)
      ∧ pyEq r.value (PyFloat.finite sentinel) = false
      ∧ substanceExcluded r.substance = false := by
  intro r hr
  unfold transform_data at h
  cases hm : mapExcept convertRow (raw.filter dropnaKeep) with
  | error e => rw [hm] at h; simp at h
  | ok df =>
    rw [hm] at h
    simp only [Except.ok.injEq] at h
    subst h
    refine ⟨?_, ?_, ?_⟩
    · have hr1 := (List.mem_filter.mp hr).1
      have hr2 := (List.mem_filter.mp hr1).1
      exact mapExcept_ok_mem hm r hr2
    · have hp1 := (List.mem_filter.mp (List.mem_filter.mp hr).1).2
      simpa using hp1
    · have hp2 := (List.mem_filter.mp hr).2
      simpa using hp2

theorem convertRow_ok_fields {a : RawRow} {r : Row}
    (hk : dropnaKeep a = true) (hc : convertRow a = Except.ok r) :
    r.sec = a.sec ∧ r.code = a.code ∧ r.substance = a.substance
      ∧ r.oktmo_code = a.oktmo_code
      ∧ ∃ s, a.value = some s
          ∧ parsePyFloat (replaceComma s) = some r.value := by
  have h4 : a.value.isSome = true := by
    simp only [dropnaKeep, Bool.and_eq_true] at hk
    exact hk.1.1.1
  obtain ⟨s, hs⟩ := Option.isSome_iff_exists.mp h4
  unfold convertRow at hc
  cases hv : astypeFloat a.value with
  | error e => rw [hv] at hc; simp at hc
  | ok v =>
    rw [hv] at hc
    simp only [Except.ok.injEq] at hc
    subst hc
    refine ⟨rfl, rfl, rfl, rfl, s, hs, ?_⟩
    rw [hs] at hv
    simp only [astypeFloat] at hv
    cases hp : parsePyFloat (replaceComma s) with
    | none => rw [hp] at hv; simp at hv
    | some x =>
      rw [hp] at hv
      simp only [Except.ok.injEq] at hv
      exact congrArg some (hv.trans rfl)

/-! ## Claims -/

/-- C1 counterexample: a raw row whose `value` cell is the string `"NAN"`
(which survives extraction as a string and passes `dropna`) is converted
successfully by `astype('float')` to NaN, survives the sentinel and
substance filters, and so the Transformer's output contains a row whose
`value` is null — the claim's "value is non-null" fails. -/
theorem transform_nan_value_null_cex :
    transform_data [rawNan] = Except.ok [rowNan]
    ∧ rowNan.value.isNan = true := by
  refine ⟨by decide, rfl⟩

/-- C1 (amended): for every row in the Transformer's output (the cleaned
rows passed to the Loader), the fields `section`, `code` and `substance`
are non-null, `value` is not the sentinel `9999999999.0`, and `substance`
is not in the fixed exclusion set `['CD', 'ND']`; however `value` is not
always non-null — it is null (NaN) exactly in the case that the raw value
string was converted to NaN by `astype('float')` (a NaN literal such as
`"NAN"`). -/
theorem transform_output_invariants (raw : List RawRow) (out : List Row)
    (h : transform_data raw = Except.ok out) :
    ∀ r ∈ out, r.sec.isSome = true ∧ r.code.isSome = true
      ∧ r.substance.isSome = true
      ∧ r.value ≠ PyFloat.finite sentinel
      ∧ (∀ s, r.substance = some s → s ∉ excluded_substances)
      ∧ (r.value.isNan = true →
          ∃ a ∈ raw, dropnaKeep a = true
            ∧ ∃ s, a.value = some s
                ∧ parsePyFloat (replaceComma s) = some PyFloat.nan) := by
  intro r hr
  obtain ⟨⟨a, ha, hconv⟩, hsent, hexc⟩ := transform_mem_structure h r hr
  have hka : dropnaKeep a = true := (List.mem_filter.mp ha).2
  have hamem : a ∈ raw := (List.mem_filter.mp ha).1
  obtain ⟨hsec, hcode, hsub, _, s, hvs, hps⟩ := convertRow_ok_fields hka hconv
  have hka2 := hka
  simp only [dropnaKeep, Bool.and_eq_true] at hka2
  refine ⟨?_, ?_, ?_, ?_, ?_, ?_⟩
  · rw [hsec]; exact hka2.1.1.2
  · rw [hcode]; exact hka2.1.2
  · rw [hsub]; exact hka2.2
  · intro heq
    rw [heq] at hsent
    simp [pyEq] at hsent
  · intro s0 hs0
    rw [hs0] at hexc
    simp only [substanceExcluded] at hexc
    intro hmem
    simp [excluded_substances] at hexc hmem
    rcases hmem with rfl | rfl
    · exact hexc.1 rfl
    · exact hexc.2 rfl
  · intro hnan
    have hv : r.value = PyFloat.nan := by
      cases hval : r.value with
      | finite q => rw [hval] at hnan; simp [PyFloat.isNan] at hnan
      | inf b => rw [hval] at hnan; simp [PyFloat.isNan] at hnan
      | nan => rfl
    rw [hv] at hps
    exact ⟨a, hamem, hka, s, hvs, hps⟩

/-- C1 witness: the amended invariants instantiated on the concrete
NaN-valued input row. -/
theorem transform_output_invariants_witness :
    rowNan.sec.isSome = true ∧ rowNan.value ≠ PyFloat.finite sentinel :=
  ⟨(transform_output_invariants [rawNan] [rowNan] (by decide) rowNan
      (by decide)).1,
   (transform_output_invariants [rawNan] [rowNan] (by decide) rowNan
      (by decide)).2.2.2.1⟩

/-- C2 counterexample: a row whose `value` field is present but unparseable
(`"abc"`) is not dropped locally — `astype('float')` raises, the exception
is re-raised by the task (etl_flow.py lines 100-102), and the run aborts
with an error. -/
theorem transform_unparseable_value_cex :
    transform_data [rawAbc]
      = Except.error "could not convert string to float: abc" := by decide

/-- C2 (amended): the Transformer parses `value` by replacing the decimal
comma with a dot and casting to float, so `"1234,5"` yields `1234.5`; but a
row whose `value` is present and unparseable makes the whole transform task
raise a conversion error that aborts the run — the row is not dropped and
the failure is propagated. -/
theorem transform_value_parse_and_error :
    astypeFloat (some "1234,5") = Except.ok (PyFloat.finite ((1234.5 : Rat)))
    ∧ ∀ (raw : List RawRow) (a : RawRow), a ∈ raw → dropnaKeep a = true →
        a.value = some "abc" →
        (transform_data raw).isOk = false := by
  constructor
  · show Except.ok (PyFloat.finite ((natOfDigits ['1','2','3','4'] : Rat)
        + (natOfDigits ['5'] : Rat) / (10 : Rat) ^ ((1 : Nat))))
      = Except.ok (PyFloat.finite ((1234.5 : Rat)))
    have h1 : natOfDigits ['1','2','3','4'] = 1234 := by decide
    have h2 : natOfDigits ['5'] = 5 := by decide
    rw [h1, h2]
    exact congrArg (fun q => Except.ok (PyFloat.finite q)) (by norm_num)
  · intro raw a ha hk hv
    have hconv : convertRow a
        = Except.error ("could not convert string to float: " ++ "abc") := by
      unfold convertRow
      rw [hv]
      rfl
    have ha2 : a ∈ raw.filter dropnaKeep := List.mem_filter.mpr ⟨ha, hk⟩
    obtain ⟨e, he⟩ := mapExcept_error_of_mem ha2 hconv
    unfold transform_data
    rw [he]
    rfl

/-- C2 witness: a concrete run containing the unparseable row fails. -/
theorem transform_value_parse_and_error_witness :
    (transform_data [rawAbc]).isOk = false :=
  transform_value_parse_and_error.2 [rawAbc] rawAbc (by decide) (by decide)
    (by decide)

/-- The flow result does not depend on the prior database contents: every
relation write uses `if_exists='replace'` (drop-and-recreate). -/
theorem flow_ignores_prior (raw : List RawRow) (db db' : DB) (v : Bool) :
    air_quality_etl_flow raw db v = air_quality_etl_flow raw db' v := by
  unfold air_quality_etl_flow
  cases ht : transform_data raw with
  | error e => rfl
  | ok df => rfl

/-- C3: the Validator computes exactly three referential-integrity counts
(fact `code` values absent from `indicator_codes`, fact `substance` values
absent from `substance_types`, fact `oktmo_code` values absent from
`location_codes`); a nonzero count is only reported at warning level; the
relations are never modified (the database returned with validation enabled
equals the one returned with it disabled); and the flow summary still has
status `'COMPLETED'`. -/
theorem validator_three_checks_warn_only (raw : List RawRow) (db : DB)
    (db1 db2 : DB) (s1 s2 : Summary)
    (h1 : air_quality_etl_flow raw db true = Except.ok (db1, s1))
    (h2 : air_quality_etl_flow raw db false = Except.ok (db2, s2)) :
    db1 = db2
    ∧ s1.status = "COMPLETED"
    ∧ s1.validation_results = some (validate_database db1)
    ∧ (validate_database db1).checks.map CheckLog.missing
        = [missing_indicator db1, missing_substance db1, missing_location db1]
    ∧ ∀ c ∈ (validate_database db1).checks,
        c.warned = true ↔ c.missing ≠ 0 := by
  unfold air_quality_etl_flow at h1 h2
  cases ht : transform_data raw with
  | error e => rw [ht] at h1; simp at h1
  | ok df =>
    rw [ht] at h1 h2
    simp only [Except.ok.injEq, Prod.mk.injEq] at h1 h2
    obtain ⟨hdb1, hs1⟩ := h1
    obtain ⟨hdb2, hs2⟩ := h2
    subst hdb1
    subst hdb2
    subst hs1
    refine ⟨rfl, rfl, rfl, rfl, ?_⟩
    intro c hc
    simp only [validate_database, List.mem_cons, List.not_mem_nil,
      or_false] at hc
    rcases hc with rfl | rfl | rfl <;> simp

/-- C3 witness: a concrete pipeline run with and without validation. -/
theorem validator_three_checks_warn_only_witness :
    sG.status = "COMPLETED"
    ∧ sG.validation_results = some (validate_database dbG) :=
  ⟨(validator_three_checks_warn_only [rawGood] emptyDB dbG dbG sG sG0
      rfl rfl).2.1,
   (validator_three_checks_warn_only [rawGood] emptyDB dbG dbG sG sG0
      rfl rfl).2.2.1⟩

/-- C4: running the pipeline a second time over the database produced by
the first run yields exactly the same database (identical contents in all
four relations, hence equal per-relation row counts) and the same summary:
each relation write fully replaces any prior relation of the same name. -/
theorem pipeline_rerun_identical (raw : List RawRow) (db db1 : DB)
    (v : Bool) (s1 : Summary)
    (h1 : air_quality_etl_flow raw db v = Except.ok (db1, s1)) :
    air_quality_etl_flow raw db1 v = Except.ok (db1, s1) := by
  rw [flow_ignores_prior raw db1 db v]
  exact h1

/-- C4 witness: a concrete second run reproduces the first run's output. -/
theorem pipeline_rerun_identical_witness :
    air_quality_etl_flow [rawGood] dbG true = Except.ok (dbG, sG) :=
  pipeline_rerun_identical [rawGood] emptyDB dbG true sG rfl

/-- C9: whenever the flow returns normally, the summary's status is exactly
`'COMPLETED'` (no other status value is ever produced), and its
`validation_results` is the empty dictionary exactly when the
`run_validation` argument is false. -/
theorem flow_status_completed (raw : List RawRow) (db : DB) (v : Bool)
    (dbr : DB) (s : Summary)
    (h : air_quality_etl_flow raw db v = Except.ok (dbr, s)) :
    s.status = "COMPLETED" ∧ (s.validation_results = none ↔ v = false) := by
  unfold air_quality_etl_flow at h
  cases ht : transform_data raw with
  | error e => rw [ht] at h; simp at h
  | ok df =>
    rw [ht] at h
    simp only [Except.ok.injEq, Prod.mk.injEq] at h
    obtain ⟨_, hs⟩ := h
    subst hs
    refine ⟨rfl, ?_⟩
    cases v <;> simp

/-- C9 witness: a concrete run with validation enabled. -/
theorem flow_status_completed_witness :
    sG.status = "COMPLETED" ∧ (sG.validation_results = none ↔ true = false) :=
  flow_status_completed [rawGood] emptyDB true dbG sG rfl

/-- C5: the `substance_types` relation contains exactly one row per
distinct substance of the cleaned input (no duplicate substances, and every
input substance is represented), each kept row is the first occurrence of
its substance in the input (`drop_duplicates('substance')`, keep='first'),
and the relation is sorted by substance. -/
theorem substance_types_first_seen_sorted (df : List Row) (db : DB) :
    (((create_database_tables df db).1.substance_types.map
        SubRow.substance).Nodup)
    ∧ (∀ r ∈ (create_database_tables df db).1.substance_types,
        (df.map projSub).find?
          (fun x => decide (x.substance = r.substance)) = some r)
    ∧ (∀ r0 ∈ df, ∃ r ∈ (create_database_tables df db).1.substance_types,
        r.substance = r0.substance)
    ∧ List.Sorted subLe (create_database_tables df db).1.substance_types := by
  have htab : (create_database_tables df db).1.substance_types
      = List.insertionSort subLe
          (drop_duplicates SubRow.substance (df.map projSub)) := rfl
  have hperm : List.Perm
      (List.insertionSort subLe
        (drop_duplicates SubRow.substance (df.map projSub)))
      (drop_duplicates SubRow.substance (df.map projSub)) :=
    List.perm_insertionSort subLe _
  refine ⟨?_, ?_, ?_, ?_⟩
  · rw [htab]
    exact ((hperm.map SubRow.substance).nodup_iff).mpr
      (nodup_keys_drop_duplicates SubRow.substance (df.map projSub))
  · intro r hr
    rw [htab] at hr
    exact find?_drop_duplicates SubRow.substance (df.map projSub) r
      (hperm.mem_iff.mp hr)
  · intro r0 hr0
    obtain ⟨y, hy, hky⟩ := cover_drop_duplicates SubRow.substance
      (df.map projSub) (projSub r0) (List.mem_map_of_mem projSub hr0)
    refine ⟨y, ?_, hky⟩
    rw [htab]
    exact hperm.mem_iff.mpr hy
  · rw [htab]
    exact List.sorted_insertionSort subLe _

/-- C5 witness: the first-occurrence property instantiated on a concrete
one-row input. -/
theorem substance_types_first_seen_sorted_witness :
    ([rowGood].map projSub).find?
        (fun x => decide (x.substance = (projSub rowGood).substance))
      = some (projSub rowGood) :=
  (substance_types_first_seen_sorted [rowGood] emptyDB).2.1 (projSub rowGood)
    (by decide)

/-- C6: the `indicator_codes` relation contains exactly the distinct
(code, indicator) pairs of the cleaned input — a code appearing with
several indicator texts yields several rows — with no duplicate pair, and
it is sorted by code. -/
theorem indicator_codes_distinct_pairs_sorted (df : List Row) (db : DB) :
    (∀ p, p ∈ (create_database_tables df db).1.indicator_codes
        ↔ p ∈ df.map projInd)
    ∧ (create_database_tables df db).1.indicator_codes.Nodup
    ∧ List.Sorted indLe (create_database_tables df db).1.indicator_codes := by
  have htab : (create_database_tables df db).1.indicator_codes
      = List.insertionSort indLe (drop_duplicates id (df.map projInd)) := rfl
  have hperm : List.Perm
      (List.insertionSort indLe (drop_duplicates id (df.map projInd)))
      (drop_duplicates id (df.map projInd)) :=
    List.perm_insertionSort indLe _
  refine ⟨?_, ?_, ?_⟩
  · intro p
    rw [htab, hperm.mem_iff, mem_drop_duplicates_id]
  · rw [htab]
    exact hperm.nodup_iff.mpr (nodup_drop_duplicates_id (df.map projInd))
  · rw [htab]
    exact List.sorted_insertionSort indLe _

/-- C6 witness: a concrete pair of the input is present in the relation. -/
theorem indicator_codes_distinct_pairs_sorted_witness :
    projInd rowGood
      ∈ (create_database_tables [rowGood] emptyDB).1.indicator_codes :=
  ((indicator_codes_distinct_pairs_sorted [rowGood] emptyDB).1
    (projInd rowGood)).mpr (by decide)

/-- A fourteen-column raw header with pairwise distinct names, standing for
the unknown header of the source CSV. -/
def raw_header : List String :=
  ["c0", "c1", "c2", "c3", "c4", "c5", "c6", "c7", "c8", "c9", "c10",
   "c11", "c12", "c13"]

/-- C7 counterexample: on a fourteen-column header the twelfth renamed
column is `oktmo_code`, not `location_code` — the source's canonical name
list (etl_flow.py line 63) uses `oktmo_code`. -/
theorem rename_twelfth_column_cex :
    (renameColumns raw_header).getD 11 "" = "oktmo_code"
    ∧ "oktmo_code" ≠ "location_code" := by
  refine ⟨by decide, by decide⟩

theorem renameColumns_canonical (cols : List String) (hn : cols.Nodup)
    (hlen : cols.length = 14) : renameColumns cols = new_names := by
  apply List.ext_get
  · simp [renameColumns, new_names, hlen]
  · intro i h1 h2
    have hic : i < cols.length := by simpa [renameColumns] using h1
    have hin : i < new_names.length := h2
    simp only [renameColumns, List.get_map]
    rw [lookup_zip_nodup cols new_names hn i hic hin]
    rfl

/-- C7 (amended): the Transformer renames the fourteen positional raw
columns, in fixed positional order, to exactly `section, indicator, unit,
code, substance, source_type, emission_type, location_level, region,
municipal_district, municipal_formation, oktmo_code, year, value` — the
twelfth canonical column of every downstream relation is named
`oktmo_code` (the spec's `location_code` corresponds to this column). -/
theorem rename_canonical_columns (cols : List String) (hn : cols.Nodup)
    (hlen : cols.length = 14) :
    renameColumns cols =
      ["section", "indicator", "unit", "code", "substance",
       "source_type", "emission_type", "location_level", "region",
       "municipal_district", "municipal_formation", "oktmo_code",
       "year", "value"] :=
  renameColumns_canonical cols hn hlen

/-- C7 witness: the rename applied to a concrete distinct header. -/
theorem rename_canonical_columns_witness :
    renameColumns raw_header =
      ["section", "indicator", "unit", "code", "substance",
       "source_type", "emission_type", "location_level", "region",
       "municipal_district", "municipal_formation", "oktmo_code",
       "year", "value"] :=
  rename_canonical_columns raw_header (by decide) (by decide)

/-- C8 counterexample: a raw row with a null `oktmo_code` but non-null
`value`, `section`, `code` and `substance` survives cleaning (the dropna
subset does not include `oktmo_code`) and is loaded into the fact table
with a null location code. -/
theorem fact_null_location_cex :
    transform_data [rawNoLoc] = Except.ok [rowNoLoc]
    ∧ (create_database_tables [rowNoLoc] emptyDB).1.air_emissions
        = [projFact rowNoLoc]
    ∧ (projFact rowNoLoc).oktmo_code = none := by
  refine ⟨by decide, rfl, rfl⟩

/-- C8 (amended): the persisted fact relation is exactly the column
projection of the cleaned rows, preserving `oktmo_code` as is — a cleaned
row with a null location code does reach the fact table, as a record with a
null `oktmo_code` (only `value`, `section`, `code`, `substance` are
required by the cleaning step). -/
theorem fact_location_code_preserved (df : List Row) (db : DB) :
    (create_database_tables df db).1.air_emissions = df.map projFact
    ∧ ∀ r ∈ df, r.oktmo_code = none →
        projFact r ∈ (create_database_tables df db).1.air_emissions
        ∧ (projFact r).oktmo_code = none := by
  refine ⟨rfl, ?_⟩
  intro r hr hnone
  exact ⟨List.mem_map_of_mem projFact hr,
    by simp [projFact, hnone]⟩

/-- C8 witness: the concrete null-location row is loaded. -/
theorem fact_location_code_preserved_witness :
    projFact rowNoLoc
      ∈ (create_database_tables [rowNoLoc] emptyDB).1.air_emissions
    ∧ (projFact rowNoLoc).oktmo_code = none :=
  (fact_location_code_preserved [rowNoLoc] emptyDB).2 rowNoLoc (by decide)
    rfl

theorem map_filter_key {α : Type} (key : α → Option String) (l : List α) :
    (l.filter (fun r => (key r).isSome)).map key
      = (l.map key).filter (fun x => x.isSome) := by
  induction l with
  | nil => rfl
  | cons a t ih =>
    by_cases h : (key a).isSome = true
    · simp [List.filter_cons, h, ih]
    · simp [List.filter_cons, h, ih]

/-- A row of `location_codes` whose key is null. -/
def locNullRow : LocRow :=
  { oktmo_code := none, municipal_formation := some "Formation C",
    municipal_district := some "District B", region := some "Region A" }

/-- A fact row whose location code resolves to no `location_codes` row. -/
def factOrphan : FactRow :=
  { sec := some "01", code := some "W01", substance := some "SO2",
    value := some (PyFloat.finite ((10 : Rat))),
    oktmo_code := some "99999999",
    year := some (PyFloat.finite ((2020 : Rat))) }

/-- A database whose fact table has an orphan location code and whose
`location_codes` key column contains a null. -/
def dbNull : DB :=
  { air_emissions := [factOrphan],
    indicator_codes :=
      [{ code := some "W01", indicator := some "gross emissions" }],
    substance_types :=
      [{ substance := some "SO2", source_type := some "stationary" }],
    location_codes := [locNullRow] }

/-- C10: the Validator's missing-reference counts never count a null
foreign-key value of the fact table as missing (removing the null-key fact
rows leaves each count unchanged), and if a dimension relation's key column
contains a null, the corresponding `NOT IN` check reports zero missing
references regardless of how many genuine orphan keys the fact table has
(SQL three-valued `NOT IN` semantics). -/
theorem validator_null_fk_semantics (db : DB) :
    (missing_indicator
        { db with
          air_emissions := db.air_emissions.filter (fun r => r.code.isSome) }
      = missing_indicator db)
    ∧ (missing_substance
        { db with
          air_emissions :=
            db.air_emissions.filter (fun r => r.substance.isSome) }
      = missing_substance db)
    ∧ (missing_location
        { db with
          air_emissions :=
            db.air_emissions.filter (fun r => r.oktmo_code.isSome) }
      = missing_location db)
    ∧ ((∃ r ∈ db.indicator_codes, r.code = none) →
        missing_indicator db = 0)
    ∧ ((∃ r ∈ db.substance_types, r.substance = none) →
        missing_substance db = 0)
    ∧ ((∃ r ∈ db.location_codes, r.oktmo_code = none) →
        missing_location db = 0) := by
  refine ⟨?_, ?_, ?_, ?_, ?_, ?_⟩
  · show count_missing ((db.air_emissions.filter
        (fun r => (FactRow.code r).isSome)).map FactRow.code) _ = _
    rw [map_filter_key, count_missing_ignores_null_fk]
    rfl
  · show count_missing ((db.air_emissions.filter
        (fun r => (FactRow.substance r).isSome)).map FactRow.substance) _ = _
    rw [map_filter_key, count_missing_ignores_null_fk]
    rfl
  · show count_missing ((db.air_emissions.filter
        (fun r => (FactRow.oktmo_code r).isSome)).map FactRow.oktmo_code) _
      = _
    rw [map_filter_key, count_missing_ignores_null_fk]
    rfl
  · rintro ⟨r, hr, hnone⟩
    exact count_missing_of_null_key _ _
      (List.mem_map.mpr ⟨r, hr, hnone⟩)
  · rintro ⟨r, hr, hnone⟩
    exact count_missing_of_null_key _ _
      (List.mem_map.mpr ⟨r, hr, hnone⟩)
  · rintro ⟨r, hr, hnone⟩
    exact count_missing_of_null_key _ _
      (List.mem_map.mpr ⟨r, hr, hnone⟩)

/-- C10 witness: in a concrete database whose fact table has a genuine
orphan location code but whose `location_codes` key column contains a null,
the location check reports zero missing references. -/
theorem validator_null_fk_semantics_witness : missing_location dbNull = 0 :=
  (validator_null_fk_semantics dbNull).2.2.2.2.2
    ⟨locNullRow, by decide, rfl⟩
